import Mathlib

/-!
Shallow embedding of `compareIngredients` from
`client/src/utils/compareIngredients.js` (repository HanzRod3/RecipeProject):

```javascript
function compareIngredients(recipe1, recipe2) {
  const commonIngredients = recipe1.ingredients.filter((ingredient) =>
    recipe2.ingredients.some((ing) => ing.name === ingredient.name)
  );
  return commonIngredients;
}
```

Modelling decisions, following JavaScript semantics:
* A possibly-missing object field is an `Option`: a recipe may lack the
  `ingredients` field, an ingredient may lack `name`, `amount`, `unit`.
* Reading `.filter` or `.some` off an absent (`undefined`) `ingredients`
  field throws a `TypeError`; the embedding returns `Except JsError _`.
* JavaScript strict equality `ing.name === ingredient.name` on possibly
  undefined string fields is equality on `Option String` (in particular
  `undefined === undefined` is true).
* `Array.prototype.filter` visits elements left to right, never mutates,
  and propagates the first exception the callback throws; `filterJs`
  reproduces this over `Except`.
-/

structure Ingredient where
  name : Option String
  amount : Option Nat
  unit : Option String
deriving DecidableEq, Repr

structure Recipe where
  ingredients : Option (List Ingredient)
deriving DecidableEq, Repr

inductive JsError where
  | typeError
deriving DecidableEq, Repr

/-- The callback `(ingredient) => recipe2.ingredients.some((ing) => ing.name === ingredient.name)`:
reading `.some` off an absent `ingredients` field throws a `TypeError`. -/
def ingMatches (ings2 : Option (List Ingredient)) (ingredient : Ingredient) :
    Except JsError Bool :=
  match ings2 with
  | none => .error .typeError
  | some l2 => .ok (l2.any (fun ing => ing.name == ingredient.name))

/-- `Array.prototype.filter` with a callback that may throw: elements are
visited left to right and the first exception aborts the traversal. -/
def filterJs (p : Ingredient → Except JsError Bool) :
    List Ingredient → Except JsError (List Ingredient)
  | [] => .ok []
  | x :: xs =>
    match p x with
    | .error e => .error e
    | .ok b =>
      match filterJs p xs with
      | .error e => .error e
      | .ok rest => .ok (if b then x :: rest else rest)

/-- `compareIngredients(recipe1, recipe2)`: reading `.filter` off an absent
`ingredients` field of `recipe1` throws a `TypeError`. -/
def compareIngredients (recipe1 recipe2 : Recipe) : Except JsError (List Ingredient) :=
  match recipe1.ingredients with
  | none => .error .typeError
  | some l1 => filterJs (ingMatches recipe2.ingredients) l1

/-- The pure membership test the filter callback computes when `recipe2`'s
`ingredients` field is present. -/
def matchPred (l2 : List Ingredient) (x : Ingredient) : Bool :=
  l2.any (fun ing => ing.name == x.name)

theorem filterJs_total (p : Ingredient → Bool) (l : List Ingredient) :
    filterJs (fun x => .ok (p x)) l = .ok (l.filter p) := by
  induction l with
  | nil => rfl
  | cons x xs ih =>
      cases h : p x <;> simp [filterJs, ih, List.filter_cons, h]

theorem compareIngredients_some {r1 r2 : Recipe} {l1 l2 : List Ingredient}
    (h1 : r1.ingredients = some l1) (h2 : r2.ingredients = some l2) :
    compareIngredients r1 r2 = .ok (l1.filter (matchPred l2)) := by
  simp only [compareIngredients, h1, h2, ingMatches]
  exact filterJs_total (matchPred l2) l1

theorem filterJs_ok_sublist {p : Ingredient → Except JsError Bool}
    {l res : List Ingredient} (h : filterJs p l = .ok res) : res.Sublist l := by
  induction l generalizing res with
  | nil =>
      simp only [filterJs, Except.ok.injEq] at h
      subst h; exact List.Sublist.refl _
  | cons x xs ih =>
      simp only [filterJs] at h
      cases hb : p x with
      | error e => rw [hb] at h; exact absurd h (by simp)
      | ok b =>
          rw [hb] at h
          cases hr : filterJs p xs with
          | error e => rw [hr] at h; exact absurd h (by simp)
          | ok rest =>
              rw [hr] at h
              cases b with
              | false =>
                  simp only [if_neg Bool.false_ne_true, Except.ok.injEq] at h
                  subst h
                  exact (ih hr).cons x
              | true =>
                  simp only [if_pos rfl, Except.ok.injEq] at h
                  subst h
                  exact (ih hr).cons₂ x

theorem compareIngredients_ok_sublist {r1 r2 : Recipe} {l1 res : List Ingredient}
    (h1 : r1.ingredients = some l1) (h : compareIngredients r1 r2 = .ok res) :
    res.Sublist l1 := by
  rw [compareIngredients, h1] at h
  exact filterJs_ok_sublist h

/-- Claim C1: for recipeA with ingredients named [spaghetti, cheese, eggs] and
recipeB with ingredients named [cheese, tomato, eggs], `compareIngredients`
returns exactly recipeA's cheese and eggs entries, in that order. -/
theorem c1_concrete_scenario (a1 a2 a3 b1 b2 b3 : Ingredient)
    (ha1 : a1.name = some "spaghetti") (ha2 : a2.name = some "cheese")
    (ha3 : a3.name = some "eggs") (hb1 : b1.name = some "cheese")
    (hb2 : b2.name = some "tomato") (hb3 : b3.name = some "eggs") :
    compareIngredients ⟨some [a1, a2, a3]⟩ ⟨some [b1, b2, b3]⟩ = .ok [a2, a3] := by
  rw [compareIngredients_some rfl rfl]
  have m1 : matchPred [b1, b2, b3] a1 = false := by
    simp [matchPred, ha1, hb1, hb2, hb3]
  have m2 : matchPred [b1, b2, b3] a2 = true := by
    simp [matchPred, ha2, hb1, hb2, hb3]
  have m3 : matchPred [b1, b2, b3] a3 = true := by
    simp [matchPred, ha3, hb1, hb2, hb3]
  simp [List.filter_cons, m1, m2, m3]

theorem c1_concrete_scenario_witness :
    compareIngredients
        ⟨some [⟨some "spaghetti", none, none⟩, ⟨some "cheese", none, none⟩,
               ⟨some "eggs", none, none⟩]⟩
        ⟨some [⟨some "cheese", none, none⟩, ⟨some "tomato", none, none⟩,
               ⟨some "eggs", none, none⟩]⟩
      = .ok [⟨some "cheese", none, none⟩, ⟨some "eggs", none, none⟩] :=
  c1_concrete_scenario _ _ _ _ _ _ rfl rfl rfl rfl rfl rfl

/-- Claim C2: the output of `compareIngredients` keeps the relative order of the
first recipe's ingredient list (it is a sublist of it); in particular for
A = [eggs, cheese, spaghetti] and B = [spaghetti, cheese, tomato] the result is
[cheese, spaghetti] in A's order, not [spaghetti, cheese]. -/
theorem c2_order_preservation :
    (∀ (r1 r2 : Recipe) (l1 res : List Ingredient),
        r1.ingredients = some l1 → compareIngredients r1 r2 = .ok res →
        res.Sublist l1) ∧
    (∀ a1 a2 a3 b1 b2 b3 : Ingredient,
        a1.name = some "eggs" → a2.name = some "cheese" →
        a3.name = some "spaghetti" → b1.name = some "spaghetti" →
        b2.name = some "cheese" → b3.name = some "tomato" →
        compareIngredients ⟨some [a1, a2, a3]⟩ ⟨some [b1, b2, b3]⟩ = .ok [a2, a3]) := by
  constructor
  · intro r1 r2 l1 res h1 h
    exact compareIngredients_ok_sublist h1 h
  · intro a1 a2 a3 b1 b2 b3 ha1 ha2 ha3 hb1 hb2 hb3
    rw [compareIngredients_some rfl rfl]
    have m1 : matchPred [b1, b2, b3] a1 = false := by
      simp [matchPred, ha1, hb1, hb2, hb3]
    have m2 : matchPred [b1, b2, b3] a2 = true := by
      simp [matchPred, ha2, hb1, hb2, hb3]
    have m3 : matchPred [b1, b2, b3] a3 = true := by
      simp [matchPred, ha3, hb1, hb2, hb3]
    simp [List.filter_cons, m1, m2, m3]

theorem c2_order_preservation_witness :
    compareIngredients
        ⟨some [⟨some "eggs", none, none⟩, ⟨some "cheese", none, none⟩,
               ⟨some "spaghetti", none, none⟩]⟩
        ⟨some [⟨some "spaghetti", none, none⟩, ⟨some "cheese", none, none⟩,
               ⟨some "tomato", none, none⟩]⟩
      = .ok [⟨some "cheese", none, none⟩, ⟨some "spaghetti", none, none⟩] ∧
    ([⟨some "cheese", none, none⟩, ⟨some "spaghetti", none, none⟩] : List Ingredient).Sublist
        [⟨some "eggs", none, none⟩, ⟨some "cheese", none, none⟩,
         ⟨some "spaghetti", none, none⟩] :=
  ⟨c2_order_preservation.2 _ _ _ _ _ _ rfl rfl rfl rfl rfl rfl,
   c2_order_preservation.1 _ ⟨some [⟨some "spaghetti", none, none⟩,
       ⟨some "cheese", none, none⟩, ⟨some "tomato", none, none⟩]⟩ _ _ rfl
     (c2_order_preservation.2 _ _ _ _ _ _ rfl rfl rfl rfl rfl rfl)⟩

/-- Claim C3: duplicate matching ingredients of the first recipe are all kept
(filter semantics, no deduplication): each matching entry occurs in the output
as often as in the first list, and non-matching entries do not occur at all; in
particular A = [salt, salt, pepper], B = [salt] gives [salt, salt]. -/
theorem c3_duplicate_preservation :
    (∀ (r1 r2 : Recipe) (l1 l2 res : List Ingredient),
        r1.ingredients = some l1 → r2.ingredients = some l2 →
        compareIngredients r1 r2 = .ok res →
        ∀ x : Ingredient, res.count x = if matchPred l2 x then l1.count x else 0) ∧
    (∀ s1 s2 pep t : Ingredient,
        s1.name = some "salt" → s2.name = some "salt" → pep.name = some "pepper" →
        t.name = some "salt" →
        compareIngredients ⟨some [s1, s2, pep]⟩ ⟨some [t]⟩ = .ok [s1, s2]) := by
  constructor
  · intro r1 r2 l1 l2 res h1 h2 h x
    rw [compareIngredients_some h1 h2] at h
    cases h
    cases hm : matchPred l2 x with
    | true => simp [List.count_filter hm]
    | false =>
        rw [if_neg (by simp)]
        refine List.count_eq_zero.mpr fun hmem => ?_
        have := (List.mem_filter.mp hmem).2
        rw [hm] at this
        exact Bool.false_ne_true this
  · intro s1 s2 pep t hs1 hs2 hp ht
    rw [compareIngredients_some rfl rfl]
    have m1 : matchPred [t] s1 = true := by simp [matchPred, hs1, ht]
    have m2 : matchPred [t] s2 = true := by simp [matchPred, hs2, ht]
    have m3 : matchPred [t] pep = false := by simp [matchPred, hp, ht]
    simp [List.filter_cons, m1, m2, m3]

theorem c3_duplicate_preservation_witness :
    compareIngredients
        ⟨some [⟨some "salt", none, none⟩, ⟨some "salt", none, none⟩,
               ⟨some "pepper", none, none⟩]⟩
        ⟨some [⟨some "salt", none, none⟩]⟩
      = .ok [⟨some "salt", none, none⟩, ⟨some "salt", none, none⟩] ∧
    ([⟨some "salt", none, none⟩, ⟨some "salt", none, none⟩] : List Ingredient).count
        ⟨some "salt", none, none⟩
      = if matchPred [⟨some "salt", none, none⟩] ⟨some "salt", none, none⟩ then
          ([⟨some "salt", none, none⟩, ⟨some "salt", none, none⟩,
            ⟨some "pepper", none, none⟩] : List Ingredient).count ⟨some "salt", none, none⟩
        else 0 :=
  ⟨c3_duplicate_preservation.2 _ _ _ _ rfl rfl rfl rfl,
   c3_duplicate_preservation.1 _ ⟨some [⟨some "salt", none, none⟩]⟩ _ _ _ rfl rfl
     (c3_duplicate_preservation.2 _ _ _ _ rfl rfl rfl rfl) _⟩

/-- Claim C4: name matching is strict and case-sensitive: an ingredient of the
first recipe is in the output iff its (possibly absent) name field is exactly
equal to the name field of some ingredient of the second recipe; in particular
"Tomato" and "tomato" do not match. -/
theorem c4_strict_case_sensitive_names :
    (∀ (r1 r2 : Recipe) (l1 l2 res : List Ingredient),
        r1.ingredients = some l1 → r2.ingredients = some l2 →
        compareIngredients r1 r2 = .ok res →
        ∀ x : Ingredient, x ∈ res ↔ x ∈ l1 ∧ ∃ y ∈ l2, y.name = x.name) ∧
    (∀ a b : Ingredient, a.name = some "Tomato" → b.name = some "tomato" →
        compareIngredients ⟨some [a]⟩ ⟨some [b]⟩ = .ok []) := by
  constructor
  · intro r1 r2 l1 l2 res h1 h2 h x
    rw [compareIngredients_some h1 h2] at h
    cases h
    simp [List.mem_filter, matchPred, List.any_eq_true, beq_iff_eq]
  · intro a b ha hb
    rw [compareIngredients_some rfl rfl]
    have m1 : matchPred [b] a = false := by simp [matchPred, ha, hb]
    simp [List.filter_cons, m1]

theorem c4_strict_case_sensitive_names_witness :
    compareIngredients ⟨some [⟨some "Tomato", none, none⟩]⟩
        ⟨some [⟨some "tomato", none, none⟩]⟩ = .ok [] ∧
    ((⟨some "Tomato", none, none⟩ : Ingredient) ∈ ([] : List Ingredient) ↔
      (⟨some "Tomato", none, none⟩ : Ingredient) ∈ [(⟨some "Tomato", none, none⟩ : Ingredient)] ∧
      ∃ y ∈ [(⟨some "tomato", none, none⟩ : Ingredient)],
        y.name = (⟨some "Tomato", none, none⟩ : Ingredient).name) :=
  ⟨c4_strict_case_sensitive_names.2 _ _ rfl rfl,
   c4_strict_case_sensitive_names.1 _ ⟨some [⟨some "tomato", none, none⟩]⟩ _ _ _ rfl rfl
     (c4_strict_case_sensitive_names.2 _ _ rfl rfl) _⟩

/-- Claim C5 counterexample: a first recipe lacking the `ingredients` field is
not treated as an empty sequence: `compareIngredients` raises a TypeError
(reading `.filter` off `undefined`) instead of returning an empty result. -/
theorem c5_missing_field_errors_counterexample :
    compareIngredients ⟨none⟩ ⟨some [⟨some "salt", none, none⟩]⟩ = .error .typeError ∧
    compareIngredients ⟨none⟩ ⟨some [⟨some "salt", none, none⟩]⟩ ≠ .ok [] :=
  ⟨rfl, by simp [compareIngredients]⟩

/-- Claim C5 amended: a recipe lacking the `ingredients` field is NOT treated as
empty. If the first recipe lacks it the call raises a TypeError; if the second
recipe lacks it the call raises a TypeError exactly when the first list is
nonempty, and returns the empty sequence when the first list is empty (the
filter callback never runs). -/
theorem c5_missing_ingredients_behavior :
    (∀ r2 : Recipe, compareIngredients ⟨none⟩ r2 = .error .typeError) ∧
    (∀ (x : Ingredient) (l1 : List Ingredient),
        compareIngredients ⟨some (x :: l1)⟩ ⟨none⟩ = .error .typeError) ∧
    compareIngredients ⟨some []⟩ ⟨none⟩ = .ok [] :=
  ⟨fun _ => rfl, fun _ _ => rfl, rfl⟩

/-- Claim C6 counterexample: an ingredient entry lacking a `name` field is not
always non-matching: a nameless entry in the first recipe matches a nameless
entry in the second (`undefined === undefined` is true in JavaScript) and
appears in the output. -/
theorem c6_nameless_matches_counterexample :
    compareIngredients ⟨some [⟨none, some 1, none⟩]⟩ ⟨some [⟨none, some 2, none⟩]⟩
      = .ok [⟨none, some 1, none⟩] ∧
    (⟨none, some 1, none⟩ : Ingredient).name = none := ⟨rfl, rfl⟩

/-- Claim C6 amended: when both `ingredients` fields are present no fault is
raised, and an ingredient entry lacking a `name` field matches exactly the
entries of the other recipe that also lack a name: a nameless entry of the
first recipe is in the output iff the second recipe has a nameless entry, and
a named entry of the first recipe never matches when every entry of the second
recipe is nameless. -/
theorem c6_nameless_name_semantics (r1 r2 : Recipe) (l1 l2 : List Ingredient)
    (h1 : r1.ingredients = some l1) (h2 : r2.ingredients = some l2) :
    compareIngredients r1 r2 = .ok (l1.filter (matchPred l2)) ∧
    (∀ x : Ingredient, x.name = none →
        (x ∈ l1.filter (matchPred l2) ↔ x ∈ l1 ∧ ∃ y ∈ l2, y.name = none)) ∧
    (∀ x : Ingredient, x ∈ l1 → x.name ≠ none →
        (∀ y ∈ l2, y.name = none) → x ∉ l1.filter (matchPred l2)) := by
  refine ⟨compareIngredients_some h1 h2, ?_, ?_⟩
  · intro x hx
    simp only [List.mem_filter, matchPred, List.any_eq_true, beq_iff_eq, hx]
  · intro x hxl hx hall hmem
    have hp := (List.mem_filter.mp hmem).2
    simp only [matchPred, List.any_eq_true, beq_iff_eq] at hp
    obtain ⟨y, hy, hyn⟩ := hp
    exact hx (hyn ▸ hall y hy)

theorem c6_nameless_name_semantics_witness :
    compareIngredients ⟨some [⟨none, some 1, none⟩]⟩ ⟨some [⟨none, some 2, none⟩]⟩
      = .ok (([⟨none, some 1, none⟩] : List Ingredient).filter
          (matchPred [⟨none, some 2, none⟩])) ∧
    ((⟨none, some 1, none⟩ : Ingredient) ∈
        ([⟨none, some 1, none⟩] : List Ingredient).filter
          (matchPred [⟨none, some 2, none⟩]) ↔
      (⟨none, some 1, none⟩ : Ingredient) ∈ ([⟨none, some 1, none⟩] : List Ingredient) ∧
      ∃ y ∈ ([⟨none, some 2, none⟩] : List Ingredient), y.name = none) :=
  ⟨(c6_nameless_name_semantics ⟨some [⟨none, some 1, none⟩]⟩
      ⟨some [⟨none, some 2, none⟩]⟩ _ _ rfl rfl).1,
   (c6_nameless_name_semantics ⟨some [⟨none, some 1, none⟩]⟩
      ⟨some [⟨none, some 2, none⟩]⟩ _ _ rfl rfl).2.1 _ rfl⟩

/-- Claim C7 counterexample: the empty-input law does not hold for EVERY recipe
A: when A lacks the `ingredients` field, `compareIngredients(A, {ingredients: []})`
raises a TypeError instead of returning the empty sequence. -/
theorem c7_empty_law_counterexample :
    compareIngredients ⟨none⟩ ⟨some []⟩ = .error .typeError ∧
    compareIngredients ⟨none⟩ ⟨some []⟩ ≠ .ok [] :=
  ⟨rfl, by simp [compareIngredients]⟩

/-- Claim C7 amended: for every recipe A whose `ingredients` field is present,
`compareIngredients(A, {ingredients: []})` returns the empty sequence; and for
every recipe B (even one lacking the field), `compareIngredients({ingredients: []}, B)`
returns the empty sequence. -/
theorem c7_empty_input_law :
    (∀ (r1 : Recipe) (l1 : List Ingredient), r1.ingredients = some l1 →
        compareIngredients r1 ⟨some []⟩ = .ok []) ∧
    (∀ r2 : Recipe, compareIngredients ⟨some []⟩ r2 = .ok []) := by
  constructor
  · intro r1 l1 h1
    rw [compareIngredients_some h1 rfl]
    simp [matchPred]
  · intro r2
    rfl

theorem c7_empty_input_law_witness :
    compareIngredients ⟨some [⟨some "eggs", none, none⟩]⟩ ⟨some []⟩ = .ok [] ∧
    compareIngredients ⟨some []⟩ ⟨none⟩ = .ok [] :=
  ⟨c7_empty_input_law.1 ⟨some [⟨some "eggs", none, none⟩]⟩ _ rfl,
   c7_empty_input_law.2 ⟨none⟩⟩

/-- Claim C8: `compareIngredients` is not commutative in element identity: with
A holding salt with amount 5 and B holding salt with amount 3, the A-first call
returns A's salt entry, the B-first call returns B's salt entry, and the two
results differ. -/
theorem c8_not_commutative :
    compareIngredients ⟨some [⟨some "salt", some 5, none⟩]⟩
        ⟨some [⟨some "salt", some 3, none⟩]⟩ = .ok [⟨some "salt", some 5, none⟩] ∧
    compareIngredients ⟨some [⟨some "salt", some 3, none⟩]⟩
        ⟨some [⟨some "salt", some 5, none⟩]⟩ = .ok [⟨some "salt", some 3, none⟩] ∧
    compareIngredients ⟨some [⟨some "salt", some 5, none⟩]⟩
        ⟨some [⟨some "salt", some 3, none⟩]⟩ ≠
      compareIngredients ⟨some [⟨some "salt", some 3, none⟩]⟩
        ⟨some [⟨some "salt", some 5, none⟩]⟩ := by
  refine ⟨rfl, rfl, fun h => ?_⟩
  have h' : (Except.ok [(⟨some "salt", some 5, none⟩ : Ingredient)] :
      Except JsError (List Ingredient)) = .ok [⟨some "salt", some 3, none⟩] := h
  simp at h'

/-- Claim C9: the model of `compareIngredients` is a pure function on recipe
values (so the inputs cannot be mutated by a call), and every element of a
successful output is an entry of the first recipe's ingredient list only — in
fact the output is a sublist of it. -/
theorem c9_output_drawn_from_first (r1 r2 : Recipe) (l1 res : List Ingredient)
    (h1 : r1.ingredients = some l1) (h : compareIngredients r1 r2 = .ok res) :
    (∀ x ∈ res, x ∈ l1) ∧ res.Sublist l1 :=
  have hs := compareIngredients_ok_sublist h1 h
  ⟨fun _ hx => hs.subset hx, hs⟩

theorem c9_output_drawn_from_first_witness :
    (∀ x ∈ ([⟨some "salt", some 5, none⟩] : List Ingredient),
        x ∈ ([⟨some "salt", some 5, none⟩, ⟨some "pepper", none, none⟩] :
          List Ingredient)) ∧
    ([⟨some "salt", some 5, none⟩] : List Ingredient).Sublist
        [⟨some "salt", some 5, none⟩, ⟨some "pepper", none, none⟩] :=
  c9_output_drawn_from_first
    ⟨some [⟨some "salt", some 5, none⟩, ⟨some "pepper", none, none⟩]⟩
    ⟨some [⟨some "salt", some 3, none⟩]⟩ _ _ rfl rfl

theorem mem_names_iff_matchPred (l2 : List Ingredient) (x : Ingredient) :
    matchPred l2 x = true ↔ x.name ∈ (l2.map Ingredient.name).toFinset := by
  simp [matchPred, List.any_eq_true, beq_iff_eq, List.mem_toFinset, List.mem_map]

/-- Claim C10: the output depends on the second recipe only through the set of
its ingredient names: if the ingredient lists of B and B' carry the same set of
names (order, duplication, amounts and units may differ), then
`compareIngredients A B = compareIngredients A B'` for every A. -/
theorem c10_second_recipe_name_set (r1 r2 r2' : Recipe) (l2 l2' : List Ingredient)
    (h2 : r2.ingredients = some l2) (h2' : r2'.ingredients = some l2')
    (hnames : (l2.map Ingredient.name).toFinset = (l2'.map Ingredient.name).toFinset) :
    compareIngredients r1 r2 = compareIngredients r1 r2' := by
  cases hl1 : r1.ingredients with
  | none => simp [compareIngredients, hl1]
  | some l1 =>
      rw [compareIngredients_some hl1 h2, compareIngredients_some hl1 h2']
      have hcong : ∀ x ∈ l1, matchPred l2 x = matchPred l2' x := by
        intro x _
        apply Bool.eq_iff_iff.mpr
        rw [mem_names_iff_matchPred, mem_names_iff_matchPred, hnames]
      rw [List.filter_congr hcong]

theorem c10_second_recipe_name_set_witness :
    compareIngredients ⟨some [⟨some "salt", none, none⟩]⟩
        ⟨some [⟨some "salt", some 3, none⟩, ⟨some "pepper", some 1, none⟩]⟩ =
      compareIngredients ⟨some [⟨some "salt", none, none⟩]⟩
        ⟨some [⟨some "salt", some 7, some "g"⟩, ⟨some "salt", some 7, none⟩,
               ⟨some "pepper", some 9, none⟩]⟩ :=
  c10_second_recipe_name_set _ ⟨some [⟨some "salt", some 3, none⟩,
      ⟨some "pepper", some 1, none⟩]⟩
    ⟨some [⟨some "salt", some 7, some "g"⟩, ⟨some "salt", some 7, none⟩,
           ⟨some "pepper", some 9, none⟩]⟩ _ _ rfl rfl (by decide)
